import Mathlib

/-!
Verification development for the turtle-canslim trading engine.

Python `Decimal` values are modelled as rationals (`ℚ`), Python lists as
`List`, `None`-able values as `Option`, and SQLAlchemy rows as structures.
Each definition is a shallow embedding of the correspondingly named Python
function; definitions whose name carries a `spec_` prefix instead follow the
wording of the specification, for comparison with the code-derived ones.
-/

namespace Turtle

/-- Largest element of a list of rationals, `0` on the empty list
(Python `max(xs)` raises there; all uses below are on non-empty lists). -/
def list_max : List ℚ → ℚ
  | [] => 0
  | x :: xs => xs.foldl max x

/-- Smallest element of a list of rationals, `0` on the empty list. -/
def list_min : List ℚ → ℚ
  | [] => 0
  | x :: xs => xs.foldl min x

/-- Truncation toward zero, the semantics of Python `int(...)` on `Decimal`. -/
def py_int (q : ℚ) : ℤ := if 0 ≤ q then ⌊q⌋ else ⌈q⌉

/-- Breakout classification tags, from `src/signals/breakout.py` `BreakoutType`. -/
inductive BreakoutType where
  | ENTRY_S1
  | ENTRY_S2
  | EXIT_S1
  | EXIT_S2
  | NONE
  deriving DecidableEq, Repr

/-- Result record of the breakout detector, from `breakout.py` `BreakoutResult`. -/
structure BreakoutResult where
  breakout_type : BreakoutType
  price : ℚ
  breakout_level : Option ℚ
  system : Option ℕ
  is_entry : Bool
  is_exit : Bool
  deriving DecidableEq, Repr

/-- Detector state: the four Donchian periods copied from `TurtleConfig`
in `BreakoutDetector.__init__`. -/
structure BreakoutDetector where
  s1_entry_period : ℕ
  s1_exit_period : ℕ
  s2_entry_period : ℕ
  s2_exit_period : ℕ
  deriving DecidableEq, Repr

/-- Detector built from the default `TurtleConfig`
(`system1_entry_period=20, system1_exit_period=10, system2_entry_period=55,
system2_exit_period=20`). -/
def default_detector : BreakoutDetector :=
  { s1_entry_period := 20, s1_exit_period := 10,
    s2_entry_period := 55, s2_exit_period := 20 }

/-- Embedding of `BreakoutDetector.get_high_low`: the period is clamped to the
length of the list, then the max and min of the last `period` elements are
returned. -/
def get_high_low (prices : List ℚ) (period : ℕ) : ℚ × ℚ :=
  let p := if prices.length < period then prices.length else period
  let recent := prices.drop (prices.length - p)
  (list_max recent, list_min recent)

/-- Embedding of `BreakoutDetector.check_entry`: references are the period
highs over `highs[:-1]` (current bar excluded); System 2 is checked first,
System 1 only fires when `previous_s1_winner` is false. -/
def check_entry (d : BreakoutDetector) (current_price : ℚ) (highs : List ℚ)
    (previous_s1_winner : Bool) : BreakoutResult :=
  let s1_high := (get_high_low highs.dropLast d.s1_entry_period).1
  let s2_high := (get_high_low highs.dropLast d.s2_entry_period).1
  if s2_high < current_price then
    { breakout_type := .ENTRY_S2, price := current_price,
      breakout_level := some s2_high, system := some 2,
      is_entry := true, is_exit := false }
  else if s1_high < current_price ∧ previous_s1_winner = false then
    { breakout_type := .ENTRY_S1, price := current_price,
      breakout_level := some s1_high, system := some 1,
      is_entry := true, is_exit := false }
  else
    { breakout_type := .NONE, price := current_price,
      breakout_level := none, system := none,
      is_entry := false, is_exit := false }

/-- The 25-bar high series of spec scenario 1: `highs[i] = 50000 + i·50`
for `i = 0..24` (highs 50000..51200), written out literally. -/
def c1_highs : List ℚ :=
  [50000, 50050, 50100, 50150, 50200, 50250, 50300, 50350, 50400, 50450,
   50500, 50550, 50600, 50650, 50700, 50750, 50800, 50850, 50900, 50950,
   51000, 51050, 51100, 51150, 51200]

/-- Result record of the ATR calculator, from `src/signals/atr.py` `ATRResult`. -/
structure ATRResult where
  atr : ℚ
  atr_percent : ℚ
  true_ranges : List ℚ
  period : ℕ
  deriving DecidableEq, Repr

/-- Embedding of `ATRCalculator.calculate_true_range`:
`max(high − low, |high − previous_close|, |low − previous_close|)`. -/
def calculate_true_range (high low previous_close : ℚ) : ℚ :=
  max (high - low) (max |high - previous_close| |low - previous_close|)

/-- The True-Range list built by the loop in `ATRCalculator.calculate`:
`for i in range(1, len(highs)): tr(highs[i], lows[i], closes[i-1])`.
Out-of-range indices read `0`; every use below constrains the three series
to equal length, as the Python caller guarantees. -/
def true_range_series (highs lows closes : List ℚ) : List ℚ :=
  (List.range (highs.length - 1)).map (fun i =>
    calculate_true_range (highs.getD (i + 1) 0) (lows.getD (i + 1) 0) (closes.getD i 0))

/-- Embedding of `ATRCalculator.calculate`: `None` when any series is shorter
than `period + 1`; otherwise the simple mean of the last `period` True Ranges,
with `atr_percent = atr / closes[-1] · 100` guarded by `closes[-1] > 0`. -/
def atr_calculate (period : ℕ) (highs lows closes : List ℚ) : Option ATRResult :=
  if highs.length < period + 1 ∨ lows.length < period + 1 ∨ closes.length < period + 1 then
    none
  else
    let true_ranges := true_range_series highs lows closes
    let recent_trs := true_ranges.drop (true_ranges.length - period)
    let atr := recent_trs.sum / (recent_trs.length : ℚ)
    let current_price := closes.getLastD 0
    let atr_percent := if 0 < current_price then atr / current_price * 100 else 0
    some { atr := atr, atr_percent := atr_percent, true_ranges := true_ranges, period := period }

/-- Sizer state: the three risk parameters copied from `RiskConfig` in
`PositionSizer.__init__` (`src/risk/position_sizing.py`). -/
structure PositionSizer where
  risk_per_unit : ℚ
  stop_loss_atr_multiplier : ℚ
  stop_loss_max_percent : ℚ
  deriving DecidableEq, Repr

/-- Sizer built from the default `RiskConfig`
(`risk_per_unit=0.02, stop_loss_atr_multiplier=2.0, stop_loss_max_percent=0.08`). -/
def default_sizer : PositionSizer :=
  { risk_per_unit := 2 / 100, stop_loss_atr_multiplier := 2, stop_loss_max_percent := 8 / 100 }

/-- Result record of the sizer, from `position_sizing.py` `PositionSizeResult`. -/
structure PositionSizeResult where
  quantity : ℤ
  position_value : ℚ
  risk_amount : ℚ
  risk_per_share : ℚ
  stop_loss_price : ℚ
  stop_loss_type : String
  deriving DecidableEq, Repr

/-- Embedding of `PositionSizer.calculate_stop_loss`: the 2N stop and the
percent stop, keeping whichever is higher (tighter), tagged "2N" or "8%". -/
def calculate_stop_loss (s : PositionSizer) (entry_price atr_n : ℚ) : ℚ × String :=
  let stop_2n := entry_price - s.stop_loss_atr_multiplier * atr_n
  let stop_percent := entry_price * (1 - s.stop_loss_max_percent)
  if stop_percent ≤ stop_2n then (stop_2n, "2N") else (stop_percent, "8%")

/-- Embedding of `PositionSizer.calculate_position_size` with the default
`min_quantity = 1` every caller uses; the three `ValueError` raises become
`none`. -/
def calculate_position_size (s : PositionSizer)
    (account_value entry_price stop_loss_price : ℚ) : Option ℤ :=
  if entry_price ≤ 0 then none
  else if entry_price ≤ stop_loss_price then none
  else
    let max_risk := account_value * s.risk_per_unit
    let risk_per_share := entry_price - stop_loss_price
    if risk_per_share ≤ 0 then none
    else some (max (py_int (max_risk / risk_per_share)) 1)

/-- Embedding of `PositionSizer.calculate_full_position`: stop from
`calculate_stop_loss`, quantity from `calculate_position_size`, then the
value/risk fields. -/
def calculate_full_position (s : PositionSizer)
    (account_value entry_price atr_n : ℚ) : Option PositionSizeResult :=
  let sl := calculate_stop_loss s entry_price atr_n
  match calculate_position_size s account_value entry_price sl.1 with
  | none => none
  | some quantity =>
      some { quantity := quantity,
             position_value := entry_price * (quantity : ℚ),
             risk_amount := (entry_price - sl.1) * (quantity : ℚ),
             risk_per_share := entry_price - sl.1,
             stop_loss_price := sl.1,
             stop_loss_type := sl.2 }

/-- Pyramid-manager state copied from the configs in
`PyramidManager.__init__` (`src/signals/pyramid.py`). -/
structure PyramidManager where
  unit_interval : ℚ
  max_units_per_stock : ℕ
  stop_loss_multiplier : ℚ
  deriving DecidableEq, Repr

/-- Pyramid manager built from the default configs
(`pyramid_unit_interval=0.5, max_units_per_stock=4, stop_loss_atr_multiplier=2.0`). -/
def default_pyramid : PyramidManager :=
  { unit_interval := 1 / 2, max_units_per_stock := 4, stop_loss_multiplier := 2 }

/-- Result record of the pyramid check, from `pyramid.py` `PyramidSignal`;
the interpolated values of the Python reason strings are dropped. -/
structure PyramidSignal where
  should_pyramid : Bool
  next_entry_price : ℚ
  current_units : ℕ
  max_units : ℕ
  new_stop_loss : Option ℚ
  reason : String
  deriving DecidableEq, Repr

/-- Embedding of `PyramidManager.check_pyramid_signal`: below `max_units`,
the next trigger is `initial_entry + atr_n · unit_interval · current_units`
and the signal fires when the current price reaches it, carrying a new stop
`current_price − atr_n · stop_loss_multiplier`. `max_units = 0` falls back to
the configured cap, as Python `max_units or self.max_units_per_stock` does. -/
def check_pyramid_signal (m : PyramidManager) (current_price initial_entry atr_n : ℚ)
    (current_units : ℕ) (max_units : Option ℕ) : PyramidSignal :=
  let max_u := match max_units with
    | some u => if u = 0 then m.max_units_per_stock else u
    | none => m.max_units_per_stock
  if max_u ≤ current_units then
    { should_pyramid := false, next_entry_price := 0, current_units := current_units,
      max_units := max_u, new_stop_loss := none, reason := "Maximum units reached" }
  else
    let next_entry := initial_entry + atr_n * m.unit_interval * (current_units : ℚ)
    let should_pyramid := decide (next_entry ≤ current_price)
    { should_pyramid := should_pyramid,
      next_entry_price := next_entry,
      current_units := current_units,
      max_units := max_u,
      new_stop_loss := if should_pyramid then
          some (current_price - atr_n * m.stop_loss_multiplier) else none,
      reason := if should_pyramid then "Price at or above pyramid level"
        else "Price below next pyramid level" }

/-- Position lifecycle tags, from `src/data/models.py` `PositionStatus`. -/
inductive PositionStatus where
  | OPEN
  | CLOSED
  deriving DecidableEq, Repr

/-- Position row, from `models.py` `Position`; the datetime columns
(`entry_date`, `exit_date`, `created_at`, `updated_at`) play no role in any
claim and are omitted. Quantities are naturals: every write comes from a
sized fill of at least one share. -/
structure Position where
  id : ℕ
  stock_id : ℕ
  entry_price : ℚ
  entry_system : Option ℕ
  quantity : ℕ
  units : ℕ
  stop_loss_price : Option ℚ
  stop_loss_type : Option String
  status : PositionStatus
  exit_price : Option ℚ
  exit_reason : Option String
  pnl : Option ℚ
  pnl_percent : Option ℚ
  deriving DecidableEq, Repr

/-- Embedding of `PositionRepository.create`: a fresh OPEN row; `units`
takes the model default `1` and the exit columns start empty. -/
def position_create (id stock_id : ℕ) (entry_price : ℚ) (quantity : ℕ)
    (entry_system : Option ℕ) (stop_loss_price : Option ℚ)
    (stop_loss_type : Option String) : Position :=
  { id := id, stock_id := stock_id, entry_price := entry_price,
    entry_system := entry_system, quantity := quantity, units := 1,
    stop_loss_price := stop_loss_price, stop_loss_type := stop_loss_type,
    status := .OPEN, exit_price := none, exit_reason := none,
    pnl := none, pnl_percent := none }

/-- Embedding of the row update in `PositionRepository.close_position`:
status flips to CLOSED, exit fields are set, and
`pnl = (exit − entry)·quantity`, `pnl_percent = (exit − entry)/entry`. -/
def close_position (p : Position) (exit_price : ℚ) (exit_reason : String) : Position :=
  { p with
    status := .CLOSED,
    exit_price := some exit_price,
    exit_reason := some exit_reason,
    pnl := some ((exit_price - p.entry_price) * (p.quantity : ℚ)),
    pnl_percent := some ((exit_price - p.entry_price) / p.entry_price) }

/-- Embedding of the row update in `PositionRepository.add_pyramid_unit`:
`entry_price` becomes the quantity-weighted average of the old position and
the new fill, `quantity` grows by the fill, `units` grows by one. No other
column is touched — in particular `stop_loss_price` is left as it was. -/
def add_pyramid_unit (p : Position) (additional_quantity : ℕ)
    (additional_price : ℚ) : Position :=
  let total_cost := p.entry_price * (p.quantity : ℚ) + additional_price * (additional_quantity : ℚ)
  let new_quantity := p.quantity + additional_quantity
  { p with
    entry_price := total_cost / (new_quantity : ℚ),
    quantity := new_quantity,
    units := p.units + 1 }

/-- The position mutations of the success branch of
`OrderManager.execute_pyramid`: the repository call `add_pyramid_unit`
followed by the in-memory attribute assignment
`if signal.stop_loss: position.stop_loss_price = signal.stop_loss`
(Python truthiness: skipped for `None` and for `0`). -/
def execute_pyramid_position_effect (p : Position) (additional_quantity : ℕ)
    (fill_price : ℚ) (signal_stop : Option ℚ) : Position :=
  let p1 := add_pyramid_unit p additional_quantity fill_price
  match signal_stop with
  | some s => if s = 0 then p1 else { p1 with stop_loss_price := some s }
  | none => p1

/-- Folding a list of pyramid fills `(fill_price, fill_quantity)` into a
position through `add_pyramid_unit`, one repository call per fill. -/
def apply_pyramid_fills (p : Position) : List (ℚ × ℕ) → Position
  | [] => p
  | (price, qty) :: rest => apply_pyramid_fills (add_pyramid_unit p qty price) rest

/-- Signal row, from `models.py` `Signal` (the columns the claims use);
`is_executed` starts false, per the model default. -/
structure SignalRow where
  id : ℕ
  stock_id : ℕ
  signal_type : String
  price : ℚ
  system : Option ℕ
  is_executed : Bool
  deriving DecidableEq, Repr

/-- Embedding of `SignalRepository.mark_executed`: load the row by id and,
when found, set `is_executed := true`. -/
def mark_executed (signals : List SignalRow) (signal_id : ℕ) : List SignalRow :=
  signals.map (fun s => if s.id = signal_id then { s with is_executed := true } else s)

/-- Order row, from `models.py` `Order`; datetime columns omitted. -/
structure OrderRow where
  id : ℕ
  position_id : Option ℕ
  stock_id : ℕ
  order_type : String
  order_method : String
  quantity : ℕ
  status : String
  filled_quantity : ℕ
  filled_price : Option ℚ
  broker_order_id : Option String
  deriving DecidableEq, Repr

/-- Persistent state the order manager writes: the three tables it touches. -/
structure DBState where
  signals : List SignalRow
  positions : List Position
  orders : List OrderRow
  deriving DecidableEq, Repr

/-- The repository writes of the success branch of
`OrderManager.execute_entry` (src/execution/order_manager.py lines 92–291):
an Order row created PENDING and updated to FILLED with the broker fill, and
a Position row created with
`effective_stop = max(filled_price − 2·N, filled_price·(1 − 0.08))`.
The branch performs no write to the Signal table: `OrderManager` holds no
signal repository and never calls `mark_executed`. -/
def execute_entry_success (db : DBState) (order_id position_id stock_id : ℕ)
    (quantity : ℕ) (filled_price atr_n : ℚ) (system : Option ℕ)
    (stop_loss_type : String) (broker_order_id : String) : DBState :=
  let stop_loss_price := filled_price - atr_n * 2
  let stop_loss_pct := filled_price * (1 - 8 / 100)
  let effective_stop := max stop_loss_price stop_loss_pct
  { db with
    orders := db.orders ++
      [{ id := order_id, position_id := none, stock_id := stock_id,
         order_type := "BUY", order_method := "MARKET", quantity := quantity,
         status := "FILLED", filled_quantity := quantity,
         filled_price := some filled_price,
         broker_order_id := some broker_order_id }],
    positions := db.positions ++
      [position_create position_id stock_id filled_price quantity system
        (some effective_stop) (some stop_loss_type)] }

/-- In-memory `previous_s1_winner` store of `TurtleSignalEngine`
(`self._previous_s1_results: dict[int, bool]`), as an association list. -/
def s1_lookup (m : List (ℕ × Bool)) (stock_id : ℕ) : Bool :=
  match m.find? (fun kv => kv.1 == stock_id) with
  | some kv => kv.2
  | none => true

/-- Embedding of `TurtleSignalEngine.update_s1_result`:
`self._previous_s1_results[stock_id] = was_winner`. -/
def update_s1_result (m : List (ℕ × Bool)) (stock_id : ℕ) (was_winner : Bool) :
    List (ℕ × Bool) :=
  if m.any (fun kv => kv.1 == stock_id) then
    m.map (fun kv => if kv.1 == stock_id then (kv.1, was_winner) else kv)
  else
    m ++ [(stock_id, was_winner)]

/-- The repository writes of the success branch of
`OrderManager.execute_exit` (order_manager.py lines 296–427), together with
the engine's `previous_s1_winner` store: a SELL Order row is filled and the
position is closed via `close_position`; the store is returned unchanged
because the branch contains no call to `update_s1_result` (the method has no
caller anywhere in the repository). -/
def execute_exit_success (orders : List OrderRow) (p : Position)
    (s1_results : List (ℕ × Bool)) (order_id : ℕ) (filled_price : ℚ)
    (signal_type : String) (broker_order_id : String) :
    List OrderRow × Position × List (ℕ × Bool) :=
  (orders ++
    [{ id := order_id, position_id := some p.id, stock_id := p.stock_id,
       order_type := "SELL", order_method := "MARKET", quantity := p.quantity,
       status := "FILLED", filled_quantity := p.quantity,
       filled_price := some filled_price,
       broker_order_id := some broker_order_id }],
   close_position p filled_price signal_type,
   s1_results)

/-- The stop-loss test of `TurtleSignalEngine._check_single_exit`:
`if position.stop_loss_price and current_price <= position.stop_loss_price`
(Python truthiness: a `None` or zero stop never triggers). -/
def stop_loss_triggered (stop_loss_price : Option ℚ) (current_price : ℚ) : Bool :=
  match stop_loss_price with
  | none => false
  | some s => if s = 0 then false else decide (current_price ≤ s)

/-- Unit-limit state copied from `RiskConfig` in
`UnitLimitManager.__init__` (`src/risk/unit_limits.py`). -/
structure UnitLimitManager where
  max_units_per_stock : ℕ
  max_units_correlated : ℕ
  max_units_loosely_correlated : ℕ
  max_units_total : ℕ
  deriving DecidableEq, Repr

/-- Unit limits from the default `RiskConfig` (4 / 10 / 16 / 20). -/
def default_unit_limits : UnitLimitManager :=
  { max_units_per_stock := 4, max_units_correlated := 10,
    max_units_loosely_correlated := 16, max_units_total := 20 }

/-- Lookup in an association list with default `0`, the Python
`dict.get(key, 0)`. -/
def assoc_get {κ : Type} [BEq κ] (l : List (κ × ℕ)) (k : κ) : ℕ :=
  ((l.find? (fun kv => kv.1 == k)).map Prod.snd).getD 0

/-- `d[k] = d.get(k, 0) + v` on an association list. -/
def assoc_bump {κ : Type} [BEq κ] (l : List (κ × ℕ)) (k : κ) (v : ℕ) :
    List (κ × ℕ) :=
  if l.any (fun kv => kv.1 == k) then
    l.map (fun kv => if kv.1 == k then (kv.1, kv.2 + v) else kv)
  else
    l ++ [(k, v)]

/-- Status record of `unit_limits.py` `UnitStatus`. -/
structure UnitStatus where
  total_units : ℕ
  available_units : ℤ
  max_units_total : ℕ
  stock_units : List (ℕ × ℕ)
  sector_units : List (String × ℕ)
  deriving DecidableEq, Repr

/-- Check record of `unit_limits.py` `UnitCheckResult`; the interpolated
values of the Python reason strings are dropped. -/
structure UnitCheckResult where
  can_add : Bool
  reason : String
  current_units : ℕ
  limit : ℕ
  deriving DecidableEq, Repr

/-- Embedding of `UnitLimitManager.get_unit_status` over the OPEN positions:
`total_units` sums `units`, the loop accumulates `stock_units` per stock —
and `sector_units`, though declared and returned, is never written by the
loop, so it is always the empty map, exactly as in the source. -/
def get_unit_status (m : UnitLimitManager) (open_positions : List Position) :
    UnitStatus :=
  let total_units := (open_positions.map (fun p => p.units)).sum
  let stock_units :=
    open_positions.foldl (fun acc p => assoc_bump acc p.stock_id p.units) []
  { total_units := total_units,
    available_units := (m.max_units_total : ℤ) - (total_units : ℤ),
    max_units_total := m.max_units_total,
    stock_units := stock_units,
    sector_units := [] }

/-- Embedding of `UnitLimitManager.can_add_unit`: total cap, then per-stock
cap, then (when a non-empty sector is supplied) the sector cap, each with its
structured rejection; `if sector:` is Python truthiness, skipping `None` and
`""`. -/
def can_add_unit (m : UnitLimitManager) (open_positions : List Position)
    (stock_id : ℕ) (sector : Option String) : UnitCheckResult :=
  let status := get_unit_status m open_positions
  if status.available_units ≤ 0 then
    { can_add := false, reason := "Total unit limit reached",
      current_units := status.total_units, limit := m.max_units_total }
  else
    let stock_units := assoc_get status.stock_units stock_id
    if m.max_units_per_stock ≤ stock_units then
      { can_add := false, reason := "Stock unit limit reached",
        current_units := stock_units, limit := m.max_units_per_stock }
    else
      let sector_check :=
        match sector with
        | some sec => if sec = "" then none else
            let sector_units := assoc_get status.sector_units sec
            if m.max_units_correlated ≤ sector_units then
              some { can_add := false, reason := "Sector unit limit reached",
                     current_units := sector_units,
                     limit := m.max_units_correlated }
            else none
        | none => none
      match sector_check with
      | some r => r
      | none =>
          { can_add := true, reason := "Unit can be added",
            current_units := stock_units, limit := m.max_units_per_stock }

/-- Breakout reference written from the specification: `max(H[−period−1 : −1])`,
the window of `period` bars that EXCLUDES the current bar. -/
def spec_breakout_reference (H : List ℚ) (period : ℕ) : ℚ :=
  list_max ((H.drop (H.length - period - 1)).take period)

/-- Entry classification written from the specification: ENTRY_S2 whenever
`p > s2_high` regardless of `previous_s1_winner`, else ENTRY_S1 when
`p > s1_high` and `previous_s1_winner` is false, else no entry, with the
references taken from `spec_breakout_reference`. -/
def spec_entry_classification (d : BreakoutDetector) (current_price : ℚ)
    (highs : List ℚ) (previous_s1_winner : Bool) : BreakoutResult :=
  let s1_high := spec_breakout_reference highs d.s1_entry_period
  let s2_high := spec_breakout_reference highs d.s2_entry_period
  if s2_high < current_price then
    { breakout_type := .ENTRY_S2, price := current_price,
      breakout_level := some s2_high, system := some 2,
      is_entry := true, is_exit := false }
  else if s1_high < current_price ∧ previous_s1_winner = false then
    { breakout_type := .ENTRY_S1, price := current_price,
      breakout_level := some s1_high, system := some 1,
      is_entry := true, is_exit := false }
  else
    { breakout_type := .NONE, price := current_price,
      breakout_level := none, system := none,
      is_entry := false, is_exit := false }

/-- With at least `period + 1` bars, the clamped `get_high_low` window over
`highs[:-1]` is exactly the spec's `H[−period−1 : −1]` window. -/
theorem get_high_low_dropLast (H : List ℚ) (period : ℕ)
    (h : period + 1 ≤ H.length) :
    (get_high_low H.dropLast period).1 = spec_breakout_reference H period := by
  have hlen : H.dropLast.length = H.length - 1 := List.length_dropLast H
  simp only [get_high_low, spec_breakout_reference, hlen]
  rw [if_neg (show ¬ H.length - 1 < period by omega),
    List.dropLast_eq_take, List.drop_take]
  have h1 : H.length - 1 - (H.length - 1 - period) = period := by omega
  have h2 : H.length - 1 - period = H.length - period - 1 := by omega
  rw [h1, h2]

/-- C1: the claim expects ENTRY_S1 with system 1 on the 25 ascending bars at
price 60000 with `previous_s1_winner = false`; the detector instead returns
ENTRY_S2 with system 2, because `get_high_low` clamps the 55-bar System-2
window to the 24 available prior bars rather than declaring System 2
ineligible. -/
theorem C1_counterexample :
    (check_entry default_detector 60000 c1_highs false).breakout_type ≠
        BreakoutType.ENTRY_S1 ∧
      (check_entry default_detector 60000 c1_highs false).system ≠ some 1 := by
  norm_num [check_entry, get_high_low, c1_highs, list_max, list_min, max_def,
    min_def, default_detector]
  decide

/-- C1 (amended): on 25 ascending daily bars with high at bar `i` equal to
`50000 + i·50`, current price 60000 and `previous_s1_winner = false`, the
breakout detector classifies ENTRY_S2 with system 2 and breakout level 51150:
the System-2 window is clamped to the 24 available prior bars, so both
references equal `max(highs[4..23]) = 51150` and the System-2 branch fires
first. -/
theorem C1_amended :
    check_entry default_detector 60000 c1_highs false =
      { breakout_type := .ENTRY_S2, price := 60000, breakout_level := some 51150,
        system := some 2, is_entry := true, is_exit := false } := by
  norm_num [check_entry, get_high_low, c1_highs, list_max, list_min, max_def,
    min_def, default_detector]

/-- C6: for every high series with at least `period + 1` bars per system, the
entry classifier of `BreakoutDetector.check_entry` computes its references
over the window that excludes the current bar, `max(H[−period−1 : −1])`, and
classifies ENTRY_S2 whenever the price exceeds the System-2 reference
regardless of `previous_s1_winner`, else ENTRY_S1 when the price exceeds the
System-1 reference and `previous_s1_winner` is false, else no entry. -/
theorem C6_entry_classification (d : BreakoutDetector) (current_price : ℚ)
    (highs : List ℚ) (previous_s1_winner : Bool)
    (h1 : d.s1_entry_period + 1 ≤ highs.length)
    (h2 : d.s2_entry_period + 1 ≤ highs.length) :
    check_entry d current_price highs previous_s1_winner =
      spec_entry_classification d current_price highs previous_s1_winner := by
  simp only [check_entry, spec_entry_classification,
    get_high_low_dropLast highs d.s1_entry_period h1,
    get_high_low_dropLast highs d.s2_entry_period h2]

/-- C6 witness: a 4-bar series with a detector whose entry periods are 2 and
3 satisfies both length hypotheses, and the classifier agrees with the
spec-side classification there. -/
theorem C6_witness :
    2 + 1 ≤ ([1, 2, 3, 4] : List ℚ).length ∧
      3 + 1 ≤ ([1, 2, 3, 4] : List ℚ).length ∧
      check_entry ⟨2, 1, 3, 1⟩ 10 [1, 2, 3, 4] false =
        spec_entry_classification ⟨2, 1, 3, 1⟩ 10 [1, 2, 3, 4] false :=
  ⟨by norm_num, by norm_num,
    C6_entry_classification ⟨2, 1, 3, 1⟩ 10 [1, 2, 3, 4] false
      (by norm_num) (by norm_num)⟩

/-- Mean of the last `p` True Ranges, written from the specification:
the arithmetic mean (sum divided by `p`) of the final `p` entries of the
True-Range list. -/
def spec_atr_mean (highs lows closes : List ℚ) (p : ℕ) : ℚ :=
  (((true_range_series highs lows closes).drop
      ((true_range_series highs lows closes).length - p)).sum) / (p : ℚ)

/-- Every True Range is non-negative: it dominates `|high − previous_close|`. -/
theorem calculate_true_range_nonneg (high low previous_close : ℚ) :
    0 ≤ calculate_true_range high low previous_close :=
  le_trans (abs_nonneg (high - previous_close))
    (le_trans (le_max_left _ _) (le_max_right _ _))

/-- Every entry of the True-Range list is non-negative. -/
theorem true_range_series_nonneg (highs lows closes : List ℚ) :
    ∀ x ∈ true_range_series highs lows closes, 0 ≤ x := by
  intro x hx
  simp only [true_range_series, List.mem_map] at hx
  obtain ⟨i, _, hi⟩ := hx
  exact hi ▸ calculate_true_range_nonneg _ _ _

/-- C7: for equal-length OHLC series with at least `atr_period + 1` bars, the
ATR calculator returns the arithmetic mean of the last `atr_period` True
Ranges — where the True Range at bar `i` is
`max(H[i]−L[i], |H[i]−C[i−1]|, |L[i]−C[i−1]|)` and bar 0 has none — a value
that is non-negative, with `atr_percent = atr / C[last] · 100`; for shorter
series the result is absent. -/
theorem C7_atr_mean (p : ℕ) (highs lows closes : List ℚ)
    (hHL : highs.length = lows.length) (hLC : lows.length = closes.length)
    (hp : 0 < p) (hlast : 0 ≤ closes.getLastD 0) :
    (p + 1 ≤ highs.length →
      atr_calculate p highs lows closes = some
        { atr := spec_atr_mean highs lows closes p,
          atr_percent := spec_atr_mean highs lows closes p / closes.getLastD 0 * 100,
          true_ranges := true_range_series highs lows closes,
          period := p } ∧
      0 ≤ spec_atr_mean highs lows closes p) ∧
    (highs.length < p + 1 → atr_calculate p highs lows closes = none) := by
  constructor
  · intro hlen
    have hlen2 : (true_range_series highs lows closes).length = highs.length - 1 := by
      simp [true_range_series]
    have hrec : ((true_range_series highs lows closes).drop
        ((true_range_series highs lows closes).length - p)).length = p := by
      rw [List.length_drop]
      omega
    have hnonneg : 0 ≤ spec_atr_mean highs lows closes p := by
      apply div_nonneg _ (by positivity)
      exact List.sum_nonneg (fun x hx =>
        true_range_series_nonneg highs lows closes x (List.mem_of_mem_drop hx))
    refine ⟨?_, hnonneg⟩
    have hcond : ¬ (highs.length < p + 1 ∨ lows.length < p + 1 ∨
        closes.length < p + 1) := by omega
    simp only [atr_calculate, if_neg hcond, hrec]
    have hmean : (((true_range_series highs lows closes).drop
          ((true_range_series highs lows closes).length - p)).sum) / ((p : ℕ) : ℚ) =
        spec_atr_mean highs lows closes p := rfl
    rw [hmean]
    rcases lt_or_eq_of_le hlast with hpos | hzero
    · rw [if_pos hpos]
    · rw [if_neg (by rw [← hzero]; exact lt_irrefl 0), ← hzero, div_zero, zero_mul]
  · intro hlen
    simp only [atr_calculate, if_pos (Or.inl hlen)]

/-- C7 witness: the three-bar series `H=[2,3,4], L=[1,2,3], C=[1,2,4]` with
period 2 satisfies every hypothesis; its two True Ranges are both 2, the ATR
is 2 and the ATR percent is 50. -/
theorem C7_witness :
    (atr_calculate 2 [2, 3, 4] [1, 2, 3] [1, 2, 4] = some
      { atr := spec_atr_mean [2, 3, 4] [1, 2, 3] [1, 2, 4] 2,
        atr_percent := spec_atr_mean [2, 3, 4] [1, 2, 3] [1, 2, 4] 2 /
          ([1, 2, 4] : List ℚ).getLastD 0 * 100,
        true_ranges := true_range_series [2, 3, 4] [1, 2, 3] [1, 2, 4],
        period := 2 } ∧
      0 ≤ spec_atr_mean [2, 3, 4] [1, 2, 3] [1, 2, 4] 2) ∧
    spec_atr_mean [2, 3, 4] [1, 2, 3] [1, 2, 4] 2 = 2 :=
  ⟨(C7_atr_mean 2 [2, 3, 4] [1, 2, 3] [1, 2, 4] rfl rfl (by norm_num)
      (by norm_num)).1 (by norm_num),
    by norm_num [spec_atr_mean, true_range_series, calculate_true_range,
      List.range_succ, max_def, abs]⟩

/-- Initial stop written from the specification:
`max(E − 2·N, E·(1 − 0.08))`, the tighter of the 2N and 8% rules. -/
def spec_initial_stop (E N : ℚ) : ℚ := max (E - 2 * N) (E * (1 - 8 / 100))

/-- Quantity written from the specification:
`⌊(A · risk_per_unit) / (E − stop)⌋` floored at 1, with the default
`risk_per_unit = 0.02`. -/
def spec_quantity (A E S : ℚ) : ℤ := max ⌊A * (2 / 100) / (E - S)⌋ 1

/-- C8: with the default risk configuration, position sizing sets the initial
stop to `max(E − 2·N, E·(1 − 0.08))`, records which rule dominated, and sets
the quantity to `⌊(A · risk_per_unit) / (E − stop)⌋` floored at 1. -/
theorem C8_position_sizing (A E N : ℚ) (hA : 0 ≤ A) (hE : 0 < E) (hN : 0 < N) :
    calculate_full_position default_sizer A E N = some
      { quantity := spec_quantity A E (spec_initial_stop E N),
        position_value := E * (spec_quantity A E (spec_initial_stop E N) : ℚ),
        risk_amount := (E - spec_initial_stop E N) *
          (spec_quantity A E (spec_initial_stop E N) : ℚ),
        risk_per_share := E - spec_initial_stop E N,
        stop_loss_price := spec_initial_stop E N,
        stop_loss_type := if E * (1 - 8 / 100) ≤ E - 2 * N then "2N" else "8%" } := by
  by_cases hcase : E * (1 - 8 / 100) ≤ E - 2 * N
  · have hstop : spec_initial_stop E N = E - 2 * N := max_eq_left hcase
    have hlt : E - 2 * N < E := by nlinarith
    have hrisk : 0 < E - (E - 2 * N) := by nlinarith
    have hx : 0 ≤ A * (2 / 100) / (E - (E - 2 * N)) :=
      div_nonneg (by positivity) (le_of_lt hrisk)
    simp only [calculate_full_position, calculate_stop_loss,
      calculate_position_size, default_sizer, py_int, spec_quantity, hstop,
      if_pos hcase, if_neg (not_le.mpr hE), if_neg (not_le.mpr hlt),
      if_neg (not_le.mpr hrisk), if_pos hx]
  · have hstop : spec_initial_stop E N = E * (1 - 8 / 100) :=
      max_eq_right (le_of_not_le hcase)
    have hlt : E * (1 - 8 / 100) < E := by nlinarith
    have hrisk : 0 < E - E * (1 - 8 / 100) := by nlinarith
    have hx : 0 ≤ A * (2 / 100) / (E - E * (1 - 8 / 100)) :=
      div_nonneg (by positivity) (le_of_lt hrisk)
    simp only [calculate_full_position, calculate_stop_loss,
      calculate_position_size, default_sizer, py_int, spec_quantity, hstop,
      if_neg hcase, if_neg (not_le.mpr hE), if_neg (not_le.mpr hlt),
      if_neg (not_le.mpr hrisk), if_pos hx]

/-- C8 witness: at `A = 100,000,000`, `E = 50,000`, `N = 1,500` the
hypotheses hold and sizing yields stop 47,000 of type 2N, risk per share
3,000, and quantity 666. -/
theorem C8_witness :
    (0 : ℚ) ≤ 100000000 ∧ (0 : ℚ) < 50000 ∧ (0 : ℚ) < 1500 ∧
      calculate_full_position default_sizer 100000000 50000 1500 = some
        { quantity := 666, position_value := 33300000, risk_amount := 1998000,
          risk_per_share := 3000, stop_loss_price := 47000,
          stop_loss_type := "2N" } :=
  ⟨by norm_num, by norm_num, by norm_num, by
    rw [C8_position_sizing 100000000 50000 1500 (by norm_num) (by norm_num)
      (by norm_num)]
    norm_num [spec_quantity, spec_initial_stop, max_def]⟩

/-- Folding pyramid fills through `add_pyramid_unit` preserves positivity of
the quantity and the cost identity
`entry_price · quantity = initial cost + Σ fill_price · fill_quantity`. -/
theorem apply_pyramid_fills_cost (fills : List (ℚ × ℕ)) :
    ∀ p : Position, 0 < p.quantity →
      0 < (apply_pyramid_fills p fills).quantity ∧
      (apply_pyramid_fills p fills).entry_price *
          ((apply_pyramid_fills p fills).quantity : ℚ) =
        p.entry_price * (p.quantity : ℚ) +
          (fills.map (fun f => f.1 * (f.2 : ℚ))).sum := by
  induction fills with
  | nil => intro p hq; simpa [apply_pyramid_fills] using hq
  | cons f rest ih =>
    intro p hq
    obtain ⟨price, qty⟩ := f
    have hq1 : 0 < (add_pyramid_unit p qty price).quantity := by
      simp only [add_pyramid_unit]
      omega
    obtain ⟨hpos, heq⟩ := ih (add_pyramid_unit p qty price) hq1
    have hcost : (add_pyramid_unit p qty price).entry_price *
        (((add_pyramid_unit p qty price).quantity : ℕ) : ℚ) =
        p.entry_price * (p.quantity : ℚ) + price * (qty : ℚ) := by
      have hne : (((p.quantity + qty : ℕ)) : ℚ) ≠ 0 :=
        (Nat.cast_pos.mpr (Nat.add_pos_left hq qty)).ne'
      simp only [add_pyramid_unit]
      push_cast at hne ⊢
      field_simp
    refine ⟨hpos, ?_⟩
    simp only [apply_pyramid_fills] at heq ⊢
    rw [heq, hcost, List.map_cons, List.sum_cons]
    ring

/-- C9: for every position created by an entry fill and then mutated by any
sequence of pyramid fills through `add_pyramid_unit`,
`entry_price · quantity` equals the sum of `fill_price · fill_quantity` over
the initial entry and all pyramid fills — `entry_price` stays the
quantity-weighted average of the contributing fills. -/
theorem C9_weighted_average (id stock_id : ℕ) (entry_price : ℚ) (quantity : ℕ)
    (entry_system : Option ℕ) (stop_loss_price : Option ℚ)
    (stop_loss_type : Option String) (fills : List (ℚ × ℕ))
    (hq : 0 < quantity) :
    (apply_pyramid_fills
        (position_create id stock_id entry_price quantity entry_system
          stop_loss_price stop_loss_type) fills).entry_price *
      ((apply_pyramid_fills
        (position_create id stock_id entry_price quantity entry_system
          stop_loss_price stop_loss_type) fills).quantity : ℚ) =
      entry_price * (quantity : ℚ) +
        (fills.map (fun f => f.1 * (f.2 : ℚ))).sum :=
  (apply_pyramid_fills_cost fills
    (position_create id stock_id entry_price quantity entry_system
      stop_loss_price stop_loss_type) hq).2

/-- C9 witness: an entry of 100 shares at 50000 followed by one pyramid fill
of 100 shares at 50600 satisfies the weighted-average identity. -/
theorem C9_witness :
    (apply_pyramid_fills
        (position_create 1 1 50000 100 (some 1) (some 47000) (some "2N"))
        [(50600, 100)]).entry_price *
      ((apply_pyramid_fills
        (position_create 1 1 50000 100 (some 1) (some 47000) (some "2N"))
        [(50600, 100)]).quantity : ℚ) =
      50000 * ((100 : ℕ) : ℚ) +
        (([((50600 : ℚ), (100 : ℕ))].map (fun f => f.1 * (f.2 : ℚ))).sum) :=
  C9_weighted_average 1 1 50000 100 (some 1) (some 47000) (some "2N")
    [(50600, 100)] (by norm_num)

/-- C10: a position whose stop sits below its entry price (the OPEN-position
invariant) can never trigger the stop-loss test and the pyramid check at the
same current price in the same cycle: the stop test needs
`price ≤ stop < entry` while the pyramid trigger needs
`price ≥ entry + atr·interval·units ≥ entry`. -/
theorem C10_stop_pyramid_exclusive (m : PyramidManager) (s entry_price atr_n
    current_price : ℚ) (units : ℕ) (max_units : Option ℕ)
    (hstop : s < entry_price) (hatr : 0 ≤ atr_n)
    (hk : 0 ≤ m.unit_interval) :
    ¬(stop_loss_triggered (some s) current_price = true ∧
      (check_pyramid_signal m current_price entry_price atr_n units
        max_units).should_pyramid = true) := by
  rintro ⟨h1, h2⟩
  have hps : current_price ≤ s := by
    by_cases hs : s = 0
    · simp [stop_loss_triggered, hs] at h1
    · simpa [stop_loss_triggered, hs] using h1
  simp only [check_pyramid_signal] at h2
  split at h2
  · simp at h2
  · simp only [decide_eq_true_eq] at h2
    nlinarith [mul_nonneg (mul_nonneg hatr hk) (Nat.cast_nonneg units)]

/-- C10 witness: a position with entry 50000, stop 47000, one unit, N = 1000
and current price 46500 satisfies every hypothesis, and the stop test and the
pyramid check do not both fire. -/
theorem C10_witness :
    (47000 : ℚ) < 50000 ∧ (0 : ℚ) ≤ 1000 ∧ 0 ≤ default_pyramid.unit_interval ∧
      ¬(stop_loss_triggered (some 47000) 46500 = true ∧
        (check_pyramid_signal default_pyramid 46500 50000 1000 1
          none).should_pyramid = true) :=
  ⟨by norm_num, by norm_num, by norm_num [default_pyramid],
    C10_stop_pyramid_exclusive default_pyramid 47000 50000 1000 46500 1 none
      (by norm_num) (by norm_num) (by norm_num [default_pyramid])⟩

/-- C2: a System-1 position on stock 7 (entry 50000, 100 shares) closes at
46000 — a realized loss of 400,000 — through the success branch of
`OrderManager.execute_exit`, yet the engine's `previous_s1_winner` store is
untouched (the branch never calls `TurtleSignalEngine.update_s1_result`,
which has no caller in the repository), so the next entry check for stock 7
still reads the in-memory default `true` instead of flipping to `false`; a
restart would clear even that map. -/
theorem C2_s1_winner_not_flipped :
    (execute_exit_success []
        (position_create 1 7 50000 100 (some 1) (some 47000) (some "2N"))
        [] 1 46000 "STOP_LOSS" "B1").2.1.pnl = some (-400000) ∧
    (execute_exit_success []
        (position_create 1 7 50000 100 (some 1) (some 47000) (some "2N"))
        [] 1 46000 "STOP_LOSS" "B1").2.2 = [] ∧
    s1_lookup
      (execute_exit_success []
        (position_create 1 7 50000 100 (some 1) (some 47000) (some "2N"))
        [] 1 46000 "STOP_LOSS" "B1").2.2 7 = true := by
  refine ⟨?_, rfl, rfl⟩
  norm_num [execute_exit_success, close_position, position_create]

/-- C3: on the pyramid fill of 100 shares at 50600 against a position with
entry 50000, 100 shares, one unit and stop 47000, the repository update
`add_pyramid_unit` raises quantity to 200, recomputes the weighted entry
price 50300 and increments units to 2 — but leaves `stop_loss_price` at
47000. The signal's new stop 48600 is only assigned afterwards, in memory,
by `OrderManager.execute_pyramid`, outside the repository update. -/
theorem C3_stop_not_raised_by_add_pyramid_unit :
    (add_pyramid_unit
        (position_create 1 1 50000 100 (some 1) (some 47000) (some "2N"))
        100 50600).quantity = 200 ∧
    (add_pyramid_unit
        (position_create 1 1 50000 100 (some 1) (some 47000) (some "2N"))
        100 50600).entry_price = 50300 ∧
    (add_pyramid_unit
        (position_create 1 1 50000 100 (some 1) (some 47000) (some "2N"))
        100 50600).units = 2 ∧
    (add_pyramid_unit
        (position_create 1 1 50000 100 (some 1) (some 47000) (some "2N"))
        100 50600).stop_loss_price = some 47000 ∧
    (execute_pyramid_position_effect
        (position_create 1 1 50000 100 (some 1) (some 47000) (some "2N"))
        100 50600 (some 48600)).stop_loss_price = some 48600 := by
  refine ⟨rfl, ?_, rfl, rfl, ?_⟩
  · norm_num [add_pyramid_unit, position_create]
  · norm_num [execute_pyramid_position_effect, add_pyramid_unit,
      position_create]

/-- A detected but not yet executed ENTRY_S1 signal row. -/
def c4_signal : SignalRow :=
  { id := 5, stock_id := 7, signal_type := "ENTRY_S1", price := 51200,
    system := some 1, is_executed := false }

/-- C4: a detected ENTRY_S1 signal (row id 5, `is_executed = false`) is
executed successfully — the success branch of `OrderManager.execute_entry`
writes a FILLED order and a new position — yet the Signal table is returned
unchanged and the row's `is_executed` flag is still `false`: the branch holds
no signal repository and never calls `SignalRepository.mark_executed`, the
method that would have flipped it. -/
theorem C4_signal_flag_not_flipped :
    (execute_entry_success
        { signals := [c4_signal], positions := [], orders := [] }
        1 1 7 666 51200 1500 (some 1) "2N" "B1").signals = [c4_signal] ∧
    c4_signal.is_executed = false ∧
    mark_executed [c4_signal] 5 = [{ c4_signal with is_executed := true }] := by
  refine ⟨rfl, rfl, ?_⟩
  norm_num [mark_executed, c4_signal]

/-- Three OPEN positions on stocks 1, 2 and 3 holding 4, 4 and 2 units —
ten units in one sector, exactly the default `max_units_correlated`. -/
def c5_positions : List Position :=
  [{ id := 1, stock_id := 1, entry_price := 50000, entry_system := some 1,
     quantity := 400, units := 4, stop_loss_price := some 47000,
     stop_loss_type := some "2N", status := .OPEN, exit_price := none,
     exit_reason := none, pnl := none, pnl_percent := none },
   { id := 2, stock_id := 2, entry_price := 60000, entry_system := some 2,
     quantity := 300, units := 4, stop_loss_price := some 56000,
     stop_loss_type := some "2N", status := .OPEN, exit_price := none,
     exit_reason := none, pnl := none, pnl_percent := none },
   { id := 3, stock_id := 3, entry_price := 70000, entry_system := some 1,
     quantity := 200, units := 2, stop_loss_price := some 65000,
     stop_loss_type := some "2N", status := .OPEN, exit_price := none,
     exit_reason := none, pnl := none, pnl_percent := none }]

/-- C5: `get_unit_status` never populates `sector_units` — the loop only
accumulates `stock_units` — so the sector branch of `can_add_unit` compares
against 0 and can never reject: with ten units already open in sector "TECH"
(the default `max_units_correlated`), adding a unit on a fourth stock of the
same sector is still allowed instead of being rejected with the sector-limit
reason. -/
theorem C5_sector_cap_never_enforced :
    (∀ (m : UnitLimitManager) (open_positions : List Position),
      (get_unit_status m open_positions).sector_units = []) ∧
    can_add_unit default_unit_limits c5_positions 4 (some "TECH") =
      { can_add := true, reason := "Unit can be added",
        current_units := 0, limit := 4 } := by
  refine ⟨fun m open_positions => rfl, ?_⟩
  decide

end Turtle
